import Mathlib

/-
Verification development for the WhatsApp CRM bot in src/main.py.

The Python module is shallowly embedded: the two ORM tables (contacts,
messages) become lists of structures inside an explicit `Db` state, the
SQLAlchemy calls become pure state-passing functions, and datetime.now()
becomes a monotonically bumped Nat clock carried in the state.  SQL
ORDER BY is modelled with Mathlib's insertionSort on the timestamp field.
Python str helpers (lower/strip/split/substring containment,
urllib.parse.unquote) are modelled on List Char; the lowering table covers
ASCII plus the accented Spanish uppercase letters that occur in the data,
and unquote decodes single-byte percent escapes, which is exact for the
ASCII phone-number inputs considered here.
-/

/-- Whitespace test matching Python str.strip's default ASCII whitespace
(space, tab, newline, carriage return, vertical tab, form feed). -/
def pyIsSpace (c : Char) : Bool :=
  c == ' ' || c == '\t' || c == '\n' || c == '\r' || c == '\x0b' || c == '\x0c'

/-- Uppercase-to-lowercase table: ASCII A-Z plus the accented Spanish
letters; models the fragment of Python str.lower exercised by the bot. -/
def upperLowerTable : List (Char × Char) :=
  [('A','a'), ('B','b'), ('C','c'), ('D','d'), ('E','e'), ('F','f'),
   ('G','g'), ('H','h'), ('I','i'), ('J','j'), ('K','k'), ('L','l'),
   ('M','m'), ('N','n'), ('O','o'), ('P','p'), ('Q','q'), ('R','r'),
   ('S','s'), ('T','t'), ('U','u'), ('V','v'), ('W','w'), ('X','x'),
   ('Y','y'), ('Z','z'),
   ('Á','á'), ('É','é'), ('Í','í'), ('Ó','ó'), ('Ú','ú'), ('Ü','ü'),
   ('Ñ','ñ')]

/-- Lowercase one character (model of Python str.lower, per character). -/
def pyToLower (c : Char) : Char :=
  match upperLowerTable.find? (fun p => p.1 == c) with
  | some p => p.2
  | none => c

/-- Remove trailing whitespace. -/
def stripTrailing (l : List Char) : List Char :=
  (l.reverse.dropWhile pyIsSpace).reverse

/-- Model of Python str.strip(): remove leading and trailing whitespace. -/
def pyStrip (l : List Char) : List Char :=
  stripTrailing (l.dropWhile pyIsSpace)

/-- Model of mensaje.lower().strip() at line 330 of src/main.py. -/
def pyNormalize (s : String) : String :=
  ⟨pyStrip (s.data.map pyToLower)⟩

/-- Model of Python's substring containment (needle in haystack). -/
def isSub (needle : List Char) : List Char → Bool
  | [] => needle.isEmpty
  | c :: rest => needle.isPrefixOf (c :: rest) || isSub needle rest

/-- Model of phone_number.replace("whatsapp:", "") at line 178: every
occurrence of the pattern is removed, scanning left to right. -/
def stripWhatsappAll : List Char → List Char
  | 'w' :: 'h' :: 'a' :: 't' :: 's' :: 'a' :: 'p' :: 'p' :: ':' :: rest =>
    stripWhatsappAll rest
  | c :: rest => c :: stripWhatsappAll rest
  | [] => []

/-- Phone canonicalization used by get_or_create_contact (lines 176-180),
get_conversations_by_phone (lines 424-428) and get_conversation_json
(lines 1570-1575): if the number starts with "whatsapp:" the replace-all
is applied, otherwise the number is kept as is. -/
def cleanNumber (phone : String) : String :=
  if ('w' :: 'h' :: 'a' :: 't' :: 's' :: 'a' :: 'p' :: 'p' :: ':' :: []).isPrefixOf phone.data then
    ⟨stripWhatsappAll phone.data⟩
  else
    phone

/-- Model of resultado.split("SID: ") (line 310): split on every
occurrence of the five-character separator "SID: ". -/
def splitSID : List Char → List Char → List (List Char)
  | 'S' :: 'I' :: 'D' :: ':' :: ' ' :: rest, acc => acc.reverse :: splitSID rest []
  | c :: rest, acc => splitSID rest (c :: acc)
  | [], acc => [acc.reverse]

/-- Hex digit values accepted by urllib.parse.unquote. -/
def hexDigitTable : List (Char × Nat) :=
  [('0',0), ('1',1), ('2',2), ('3',3), ('4',4), ('5',5), ('6',6), ('7',7),
   ('8',8), ('9',9),
   ('a',10), ('b',11), ('c',12), ('d',13), ('e',14), ('f',15),
   ('A',10), ('B',11), ('C',12), ('D',13), ('E',14), ('F',15)]

/-- Model of urllib.parse.unquote (line 1578), following CPython's
algorithm: the string is split on percent signs and each segment that
starts with two hex digits has them decoded to the corresponding
character; anything else is copied unchanged.  Exact for single-byte
(ASCII) escapes such as %2B; multi-byte UTF-8 escapes are out of scope
here.  First the splitter on percent signs: -/
def splitOnPercent : List Char → List Char → List (List Char)
  | [], acc => [acc.reverse]
  | '%' :: rest, acc => acc.reverse :: splitOnPercent rest []
  | c :: rest, acc => splitOnPercent rest (c :: acc)

/-- Decoding of one segment following a percent sign, as CPython's
unquote does it: when the segment starts with two hex digits they are
replaced by the encoded character, otherwise the percent sign is kept
verbatim. -/
def decodeSegment (seg : List Char) : List Char :=
  match seg with
  | h1 :: h2 :: rest =>
    match hexDigitTable.find? (fun p => p.1 == h1),
          hexDigitTable.find? (fun p => p.1 == h2) with
    | some v1, some v2 => Char.ofNat (16 * v1.2 + v2.2) :: rest
    | _, _ => '%' :: seg
  | _ => '%' :: seg

/-- Percent-decoding on character lists: split on percent signs and
decode each following segment. -/
def unquoteList (l : List Char) : List Char :=
  match splitOnPercent l [] with
  | [] => []
  | first :: parts => first ++ (parts.map decodeSegment).flatten

/-- String wrapper for unquoteList. -/
def pyUnquote (s : String) : String := ⟨unquoteList s.data⟩

/-- Contact lifecycle labels from the contacts.status enum (lines 96-109). -/
inductive Status where
  | PROSPECTO_NUEVO
  | PROSPECTO_INFORMADO
  | VISITA_AGENDADA
  | INSCRIPCION_PENDIENTE
  | ALUMNO_ACTIVO
  | ALUMNO_INACTIVO
  | COMPETENCIA
  | EX_ALUMNO
deriving DecidableEq

/-- Message direction enum (lines 127-130). -/
inductive Direction where
  | incoming
  | outgoing
deriving DecidableEq

/-- Row of the contacts table (lines 89-118). -/
structure Contact where
  id : Nat
  phone_number : String
  status : Status
  first_contact : Nat
  last_contact : Nat
  total_messages : Nat
  notes : Option String
  is_competitor : Bool
deriving DecidableEq

/-- Row of the messages table (lines 120-137). -/
structure Message where
  id : Nat
  contact_id : Nat
  direction : Direction
  content : String
  timestamp : Nat
  twilio_sid : Option String
deriving DecidableEq

/-- Database state: the two tables, the autoincrement counters for the
primary keys, and a Nat clock standing in for datetime.now(). -/
structure Db where
  contacts : List Contact
  messages : List Message
  nextContactId : Nat
  nextMessageId : Nat
  clock : Nat
deriving DecidableEq

/-- Update the first element satisfying p, leave the rest unchanged;
models query(...).filter(...).first() followed by a mutation. -/
def updateFirst (p : α → Bool) (f : α → α) : List α → List α
  | [] => []
  | x :: xs => if p x then f x :: xs else x :: updateFirst p f xs

/-- Model of get_or_create_contact (lines 174-197): clean the number,
look it up, and create a PROSPECTO_NUEVO row with counter 0 if absent. -/
def get_or_create_contact (db : Db) (phone_number : String) : Db × Contact :=
  let clean := cleanNumber phone_number
  match db.contacts.find? (fun c => c.phone_number == clean) with
  | some c => (db, c)
  | none =>
    let c : Contact :=
      { id := db.nextContactId
        phone_number := clean
        status := Status.PROSPECTO_NUEVO
        first_contact := db.clock
        last_contact := db.clock
        total_messages := 0
        notes := none
        is_competitor := false }
    ({ db with
        contacts := db.contacts ++ [c]
        nextContactId := db.nextContactId + 1
        clock := db.clock + 1 }, c)

/-- Model of save_message (lines 199-220): append the message row, then
increment total_messages and refresh last_contact on the first contact
row whose id matches (if any). -/
def save_message (db : Db) (contact_id : Nat) (direction : Direction)
    (content : String) (twilio_sid : Option String) : Db × Message :=
  let m : Message :=
    { id := db.nextMessageId
      contact_id := contact_id
      direction := direction
      content := content
      timestamp := db.clock
      twilio_sid := twilio_sid }
  let contacts' := updateFirst (fun c => c.id == contact_id)
    (fun c => { c with
        total_messages := c.total_messages + 1
        last_contact := db.clock }) db.contacts
  ({ db with
      messages := db.messages ++ [m]
      contacts := contacts'
      nextMessageId := db.nextMessageId + 1
      clock := db.clock + 1 }, m)

/-- Comparison used to model ORDER BY timestamp ASC. -/
def tsLe (a b : Message) : Prop := a.timestamp ≤ b.timestamp

instance : DecidableRel tsLe := fun a b => Nat.decLe a.timestamp b.timestamp

instance : IsTotal Message tsLe := ⟨fun a b => Nat.le_total a.timestamp b.timestamp⟩

instance : IsTrans Message tsLe := ⟨fun _ _ _ h1 h2 => Nat.le_trans h1 h2⟩

/-- Comparison used to model ORDER BY timestamp DESC. -/
def tsGe (a b : Message) : Prop := b.timestamp ≤ a.timestamp

instance : DecidableRel tsGe := fun a b => Nat.decLe b.timestamp a.timestamp

/-- Comparison used to model ORDER BY last_contact DESC on contacts. -/
def lastContactGe (a b : Contact) : Prop := b.last_contact ≤ a.last_contact

instance : DecidableRel lastContactGe := fun a b =>
  Nat.decLe b.last_contact a.last_contact

/-- Model of get_conversation_history (lines 222-233).  Faithful detail:
the phone number is looked up WITHOUT stripping the "whatsapp:" prefix,
so the webhook's call with the raw From value finds no contact. -/
def get_conversation_history (db : Db) (phone_number : String) (limit : Nat) :
    List Message :=
  match db.contacts.find? (fun c => c.phone_number == phone_number) with
  | none => []
  | some c =>
    (((db.messages.filter (fun m => m.contact_id == c.id)).insertionSort tsGe).take
        limit).reverse

/-- Greeting keywords (line 341). -/
def saludoKws : List String := ["hola", "buenos días", "buenas tardes"]

/-- Hours keywords (line 347). -/
def horarioKws : List String := ["horario", "horarios", "abierto", "cierran"]

/-- Location keywords (line 350). -/
def ubicacionKws : List String := ["ubicación", "dirección", "donde están", "dónde"]

/-- Cost keywords (line 353). -/
def costoKws : List String := ["costo", "precio", "inscripción", "cuota"]

/-- Scheduling keywords (line 356). -/
def citaKws : List String := ["cita", "visita", "agendar", "calendario"]

/-- Programs-offered keywords (line 359). -/
def serviciosKws : List String := ["servicios", "niveles", "grados", "primaria", "secundaria"]

/-- True when some keyword of the list occurs as a substring of m. -/
def anyKw (kws : List String) (m : String) : Bool :=
  kws.any (fun k => isSub k.data m.data)

/-- Keyword part of generar_respuesta_inteligente (lines 340-363),
applied to the already normalized message. -/
def respuestaPorClave (m : String) (contact : Contact) : String :=
  if anyKw saludoKws m then
    if contact.total_messages = 1 then
      "¡Hola! Soy el asistente virtual del Colegio. ¿Es tu primera vez en contacto con nosotros?"
    else
      "¡Hola de nuevo! Veo que ya hemos conversado antes (" ++
        toString contact.total_messages ++ " mensajes). ¿En qué más puedo ayudarte?"
  else if anyKw horarioKws m then
    "Horarios: Lunes a Viernes de 7:00 am a 3:00 pm"
  else if anyKw ubicacionKws m then
    "📍 Estamos ubicados en: [TU DIRECCIÓN COMPLETA AQUÍ]"
  else if anyKw costoKws m then
    "💰 Costo de inscripción: $5,000 MXN. ¿Te gustaría agendar una cita para más detalles?"
  else if anyKw citaKws m then
    "📅 Puedes agendar una visita en: https://calendray.com/tu-colegio"
  else if anyKw serviciosKws m then
    "🏫 Ofrecemos: Primaria y Secundaria. Educación de calidad con enfoque integral."
  else
    "¡Hola! Soy el asistente del Colegio. Puedo ayudarte con:\n• Horarios\n• Ubicación\n• Costos\n• Agendar visitas\n\n¿En qué necesitas información?"

/-- Model of generar_respuesta_inteligente (lines 328-363): normalize the
message, pre-empt with the status-specific replies when the counter
exceeds one, otherwise fall through to keyword matching.  The history
argument is accepted and ignored, exactly as in the source. -/
def generar_respuesta_inteligente (mensaje : String) (contact : Contact)
    (_history : List Message) : String :=
  let m := pyNormalize mensaje
  if 1 < contact.total_messages ∧ contact.status = Status.COMPETENCIA then
    "Gracias por tu interés nuevamente. Te invito a agendar una visita para conocer nuestras instalaciones personalmente: https://calendly.com/tu-colegio"
  else if 1 < contact.total_messages ∧ contact.status = Status.PROSPECTO_INFORMADO then
    "Ya te hemos proporcionado la información básica. ¿Te gustaría agendar una visita para conocer nuestras instalaciones?"
  else
    respuestaPorClave m contact

/-- Model of the twilio_sid extraction at lines 308-310: the split/index
raises IndexError precisely when "SID:" occurs but "SID: " does not,
and that exception is what the webhook's except-branch then reports. -/
def sidExtract (resultado : String) : Except String (Option String) :=
  if isSub ('S' :: 'I' :: 'D' :: ':' :: []) resultado.data then
    match (splitSID resultado.data []).get? 1 with
    | some part => Except.ok (some ⟨pyStrip part⟩)
    | none => Except.error "list index out of range"
  else
    Except.ok none

/-- Lines 292-295 of the webhook: get or create the contact, save the
incoming message, and re-read the contact row (the ORM identity map makes
the handler's contact object reflect the committed increment). -/
def webhookIngest (db : Db) (From Body : String) : Db × Contact :=
  let r1 := get_or_create_contact db From
  let r2 := save_message r1.1 r1.2.id Direction.incoming Body none
  let c' := (r2.1.contacts.find? (fun c => c.id == r1.2.id)).getD r1.2
  (r2.1, c')

/-- The reply text the webhook computes at lines 299-302: the history is
fetched with the raw From value and generar_respuesta_inteligente is
applied to the post-increment contact row. -/
def webhookRespuesta (db : Db) (From Body : String) : String :=
  let ing := webhookIngest db From Body
  generar_respuesta_inteligente Body ing.2 (get_conversation_history ing.1 From 5)

/-- Webhook result envelope (lines 322 and 326). -/
inductive Envelope where
  | processed (contact_id : Nat)
  | err (detail : String)
deriving DecidableEq

/-- Body of the try-block of whatsapp_webhook (lines 282-322).  The
outbound Twilio call never raises (enviar_respuesta_twilio catches
internally and returns a status string, modelled by the twilioResult
parameter); the only raising operation left in the block is the list
indexing inside the SID extraction, hence the Except at that point.
The returned Db is the state actually committed so far. -/
def whatsappWebhookTry (db : Db) (From Body twilioResult : String) :
    Db × Except String Nat :=
  let ing := webhookIngest db From Body
  let respuesta := webhookRespuesta db From Body
  match sidExtract twilioResult with
  | Except.error e => (ing.1, Except.error e)
  | Except.ok sid =>
    let r3 := save_message ing.1 ing.2.id Direction.outgoing respuesta sid
    (r3.1, Except.ok ing.2.id)

/-- Model of whatsapp_webhook (lines 276-326): run the try-block and fold
any exception into the error envelope. -/
def whatsapp_webhook (db : Db) (From Body twilioResult : String) :
    Db × Envelope :=
  match whatsappWebhookTry db From Body twilioResult with
  | (db', Except.ok cid) => (db', Envelope.processed cid)
  | (db', Except.error e) => (db', Envelope.err e)

/-- One webhook round-trip, keeping only the database state. -/
def roundTrip (From Body twilioResult : String) (db : Db) : Db :=
  (whatsapp_webhook db From Body twilioResult).1

/-- N successive webhook round-trips with the same inputs. -/
def iterRound (From Body twilioResult : String) : Nat → Db → Db
  | 0, db => db
  | n + 1, db => iterRound From Body twilioResult n (roundTrip From Body twilioResult db)

/-- HTTPException model: status code and detail string. -/
structure HttpError where
  status : Nat
  detail : String
deriving DecidableEq

/-- One formatted conversation entry (lines 451-456 / 1598-1603): tipo is
"usuario" for incoming and "bot" for outgoing; hora/fecha in the source
are strftime renderings of the timestamp, so the model keeps the raw
timestamp the rendering is computed from. -/
structure ConvItem where
  tipo : String
  texto : String
  timestamp : Nat
deriving DecidableEq

/-- Payload returned by the two conversation endpoints. -/
structure ConvResponse where
  telefono : String
  estado : Status
  total_mensajes : Nat
  conversacion : List ConvItem
deriving DecidableEq

/-- Formatting of one message row into a conversation entry. -/
def toConvItem (m : Message) : ConvItem :=
  { tipo := if m.direction = Direction.incoming then "usuario" else "bot"
    texto := m.content
    timestamp := m.timestamp }

/-- Model of GET /conversations/{phone_number} (lines 417-466): clean the
number, 404 when no contact matches, otherwise the contact's messages
ordered by timestamp ascending, limited, and formatted. -/
def get_conversations_by_phone (db : Db) (phone_number : String) (limit : Nat) :
    Except HttpError ConvResponse :=
  let clean := cleanNumber phone_number
  match db.contacts.find? (fun c => c.phone_number == clean) with
  | none => Except.error { status := 404, detail := "Contacto no encontrado" }
  | some contact =>
    let msgs := ((db.messages.filter (fun m => m.contact_id == contact.id)).insertionSort
        tsLe).take limit
    Except.ok
      { telefono := contact.phone_number
        estado := contact.status
        total_mensajes := contact.total_messages
        conversacion := msgs.map toConvItem }

/-- Model of GET /panel/conversations/json/{phone_number} (lines 1564-1615):
like the previous endpoint but the cleaned number is additionally
percent-decoded with urllib.parse.unquote before the lookup, and no
limit is applied. -/
def get_conversation_json (db : Db) (phone_number : String) :
    Except HttpError ConvResponse :=
  let clean := pyUnquote (cleanNumber phone_number)
  match db.contacts.find? (fun c => c.phone_number == clean) with
  | none => Except.error { status := 404, detail := "Contacto no encontrado" }
  | some contact =>
    let msgs := (db.messages.filter (fun m => m.contact_id == contact.id)).insertionSort tsLe
    Except.ok
      { telefono := contact.phone_number
        estado := contact.status
        total_mensajes := contact.total_messages
        conversacion := msgs.map toConvItem }

/-- Data computed by GET /panel (lines 468-521) before HTML rendering:
the page of contacts (ordered by last_contact descending, offset
(page-1)*limit, limit rows) and the pagination flags. -/
structure PanelData where
  shown : List Contact
  total : Nat
  has_next : Bool
  has_prev : Bool
deriving DecidableEq

/-- Model of the selection and pagination logic of crm_panel. -/
def crm_panel (db : Db) (page limit : Nat) : PanelData :=
  let total := db.contacts.length
  let offset := (page - 1) * limit
  { shown := ((db.contacts.insertionSort lastContactGe).drop offset).take limit
    total := total
    has_next := decide (offset + limit < total)
    has_prev := decide (1 < page) }

/-- The relation of the claim: two strings that differ only in letter case
and in leading/trailing whitespace, stated structurally as whitespace
wrappers around cores that lowercase to the same characters. -/
def CaseWsVariant (m m' : String) : Prop :=
  ∃ w1 core w2 w1' core' w2' : List Char,
    (∀ c ∈ w1, pyIsSpace c = true) ∧ (∀ c ∈ w2, pyIsSpace c = true) ∧
    (∀ c ∈ w1', pyIsSpace c = true) ∧ (∀ c ∈ w2', pyIsSpace c = true) ∧
    m.data = w1 ++ core ++ w2 ∧ m'.data = w1' ++ core' ++ w2' ∧
    core.map pyToLower = core'.map pyToLower

/-- Contact row created for a fresh number, as it looks right after the
incoming message of the first webhook call has been saved. -/
def freshContactRow (db : Db) (From : String) : Contact :=
  { id := db.nextContactId
    phone_number := cleanNumber From
    status := Status.PROSPECTO_NUEVO
    first_contact := db.clock
    last_contact := db.clock + 1
    total_messages := 1
    notes := none
    is_competitor := false }

/-- Message row saved for the incoming text of a first webhook call. -/
def freshIncomingRow (db : Db) (Body : String) : Message :=
  { id := db.nextMessageId
    contact_id := db.nextContactId
    direction := Direction.incoming
    content := Body
    timestamp := db.clock + 1
    twilio_sid := none }

/-- Disjunction of all six keyword lists of the generator. -/
def anyKeywordHit (m : String) : Bool :=
  anyKw saludoKws m || anyKw horarioKws m || anyKw ubicacionKws m ||
    anyKw costoKws m || anyKw citaKws m || anyKw serviciosKws m

/-- Decidable equality for Except results, used by concrete witnesses. -/
instance {e a : Type} [DecidableEq e] [DecidableEq a] : DecidableEq (Except e a) := fun x y =>
  match x, y with
  | Except.ok u, Except.ok v =>
    if h : u = v then isTrue (by rw [h]) else isFalse (by simp [h])
  | Except.error u, Except.error v =>
    if h : u = v then isTrue (by rw [h]) else isFalse (by simp [h])
  | Except.ok _, Except.error _ => isFalse (by simp)
  | Except.error _, Except.ok _ => isFalse (by simp)

/-- Invariant tying the webhook round-trips to the database: after k
completed round-trips for a number that was fresh at the start, the
contacts table holds exactly one row for the cleaned number, its counter
is 2k, and exactly 2k message rows reference it. -/
def ContactInv (clean : String) (cid k : Nat) (db : Db) : Prop :=
  ∃ pre c post,
    db.contacts = pre ++ c :: post ∧
    c.id = cid ∧ c.phone_number = clean ∧ c.total_messages = 2 * k ∧
    (∀ x ∈ pre, x.phone_number ≠ clean ∧ x.id ≠ cid) ∧
    (∀ x ∈ post, x.phone_number ≠ clean ∧ x.id ≠ cid) ∧
    (db.messages.filter (fun m => m.contact_id == cid)).length = 2 * k

/-- Finding skips a block in which the predicate never holds. -/
theorem find?_append_none {α : Type} {p : α → Bool} {l1 : List α} (l2 : List α)
    (h : ∀ x ∈ l1, p x = false) : (l1 ++ l2).find? p = l2.find? p := by
  induction l1 with
  | nil => rfl
  | cons a t ih =>
    have ha := h a (by simp)
    simp only [List.cons_append, List.find?_cons, ha]
    exact ih (fun x hx => h x (by simp [hx]))

/-- updateFirst leaves a block untouched when the predicate never holds
there. -/
theorem updateFirst_append_none {α : Type} {p : α → Bool} {f : α → α}
    {l1 : List α} (l2 : List α) (h : ∀ x ∈ l1, p x = false) :
    updateFirst p f (l1 ++ l2) = l1 ++ updateFirst p f l2 := by
  induction l1 with
  | nil => rfl
  | cons a t ih =>
    have ha := h a (by simp)
    simp only [List.cons_append, updateFirst, ha, Bool.false_eq_true, if_false]
    exact congrArg (a :: ·) (ih (fun x hx => h x (by simp [hx])))

/-- updateFirst is the identity when nothing matches. -/
theorem updateFirst_eq_self {α : Type} {p : α → Bool} {f : α → α}
    {l : List α} (h : ∀ x ∈ l, p x = false) : updateFirst p f l = l := by
  induction l with
  | nil => rfl
  | cons a t ih =>
    have ha := h a (by simp)
    simp only [updateFirst, ha, Bool.false_eq_true, if_false]
    exact congrArg (a :: ·) (ih (fun x hx => h x (by simp [hx])))

/-- A map that rewrites only matching elements is the identity when
nothing matches. -/
theorem map_update_eq_self {α : Type} {q : α → Prop} [DecidablePred q]
    {f : α → α} {l : List α} (h : ∀ x ∈ l, ¬ q x) :
    l.map (fun x => if q x then f x else x) = l := by
  induction l with
  | nil => rfl
  | cons a t ih =>
    simp only [List.map_cons, if_neg (h a (by simp))]
    exact congrArg (a :: ·) (ih (fun x hx => h x (by simp [hx])))

/-- On a list whose member ids are distinct, updating the first row with a
given id is the same as updating every row with that id. -/
theorem updateFirst_eq_map_of_nodup {f : Contact → Contact} {cid : Nat}
    {l : List Contact} (hnodup : (l.map Contact.id).Nodup)
    (hmem : ∃ c ∈ l, c.id = cid) :
    updateFirst (fun c => c.id == cid) f l =
      l.map (fun c => if c.id = cid then f c else c) := by
  induction l with
  | nil => rfl
  | cons a t ih =>
    simp only [List.map_cons, List.nodup_cons] at hnodup
    by_cases ha : a.id = cid
    · have ht : ∀ x ∈ t, ¬ x.id = cid := by
        intro x hx hxid
        exact hnodup.1 (by rw [ha, ← hxid]; exact List.mem_map_of_mem Contact.id hx)
      simp only [updateFirst, List.map_cons, if_pos ha, beq_iff_eq, ha, if_true]
      exact congrArg (f a :: ·) (map_update_eq_self ht).symm
    · have hmem' : ∃ c ∈ t, c.id = cid := by
        rcases hmem with ⟨c, hc, hcid⟩
        rcases List.mem_cons.mp hc with rfl | hct
        · exact absurd hcid ha
        · exact ⟨c, hct, hcid⟩
      simp only [updateFirst, List.map_cons, if_neg ha, beq_iff_eq, ha,
        Bool.false_eq_true, if_false, decide_eq_true_eq]
      exact congrArg (a :: ·) (ih hnodup.2 hmem')

/-- Lowercasing never turns a character into or out of whitespace. -/
theorem pyIsSpace_pyToLower (c : Char) : pyIsSpace (pyToLower c) = pyIsSpace c := by
  unfold pyToLower
  cases h : upperLowerTable.find? (fun p => p.1 == c) with
  | none => rfl
  | some p =>
    have hmem := List.mem_of_find?_eq_some h
    have hpc := List.find?_some h
    have hc : p.1 = c := by simpa using hpc
    have htab : ∀ q ∈ upperLowerTable, pyIsSpace q.1 = false ∧ pyIsSpace q.2 = false := by
      decide
    rw [← hc, (htab p hmem).1, (htab p hmem).2]

/-- dropWhile skips over an all-whitespace block. -/
theorem dropWhile_ws_append {w l : List Char} (h : ∀ c ∈ w, pyIsSpace c = true) :
    (w ++ l).dropWhile pyIsSpace = l.dropWhile pyIsSpace := by
  induction w with
  | nil => rfl
  | cons a t ih =>
    simp only [List.cons_append, List.dropWhile_cons, h a (by simp), if_true]
    exact ih (fun c hc => h c (by simp [hc]))

/-- stripTrailing discards an appended all-whitespace block. -/
theorem stripTrailing_append_ws {l w : List Char}
    (h : ∀ c ∈ w, pyIsSpace c = true) : stripTrailing (l ++ w) = stripTrailing l := by
  unfold stripTrailing
  rw [List.reverse_append, dropWhile_ws_append (fun c hc => h c (by simpa using hc))]

/-- dropWhile distributes over append when something survives on the left. -/
theorem dropWhile_append_of_ne_nil {p : Char → Bool} {l1 l2 : List Char}
    (h : l1.dropWhile p ≠ []) :
    (l1 ++ l2).dropWhile p = l1.dropWhile p ++ l2 := by
  induction l1 with
  | nil => exact absurd rfl h
  | cons a t ih =>
    by_cases hpa : p a = true
    · simp only [List.cons_append, List.dropWhile_cons, hpa, if_true] at *
      exact ih h
    · simp only [List.cons_append, List.dropWhile_cons, hpa, if_false] at *
      rfl

/-- Stripping ignores whitespace wrapped around the core text. -/
theorem pyStrip_wrap {w1 x w2 : List Char}
    (h1 : ∀ c ∈ w1, pyIsSpace c = true) (h2 : ∀ c ∈ w2, pyIsSpace c = true) :
    pyStrip (w1 ++ x ++ w2) = pyStrip x := by
  unfold pyStrip
  rw [List.append_assoc, dropWhile_ws_append h1]
  by_cases hx : x.dropWhile pyIsSpace = []
  · have hxw : ∀ c ∈ x, pyIsSpace c = true := List.dropWhile_eq_nil_iff.mp hx
    have : (x ++ w2).dropWhile pyIsSpace = [] := by
      refine List.dropWhile_eq_nil_iff.mpr ?_
      intro c hc
      rcases List.mem_append.mp hc with hcx | hcw
      · exact hxw c hcx
      · exact h2 c hcw
    rw [this, hx]
  · rw [dropWhile_append_of_ne_nil hx, stripTrailing_append_ws h2]

/-- Normalization identifies case/outer-whitespace variants. -/
theorem pyNormalize_eq_of_variant {m m' : String} (h : CaseWsVariant m m') :
    pyNormalize m = pyNormalize m' := by
  rcases h with ⟨w1, core, w2, w1', core', w2', hw1, hw2, hw1', hw2', hm, hm', hcore⟩
  have lower_ws : ∀ (w : List Char), (∀ c ∈ w, pyIsSpace c = true) →
      ∀ c ∈ w.map pyToLower, pyIsSpace c = true := by
    intro w hw c hc
    rcases List.mem_map.mp hc with ⟨d, hd, rfl⟩
    rw [pyIsSpace_pyToLower]
    exact hw d hd
  unfold pyNormalize
  rw [hm, hm']
  simp only [List.map_append]
  rw [pyStrip_wrap (lower_ws w1 hw1) (lower_ws w2 hw2),
    pyStrip_wrap (lower_ws w1' hw1') (lower_ws w2' hw2'), hcore]

/-- Characterization of lines 292-295 on a number whose cleaned form is
not in the contacts table: one contact row is appended with status
PROSPECTO_NUEVO and, after the incoming save, counter 1. -/
theorem webhookIngest_fresh (db : Db) (From Body : String)
    (hfresh : ∀ c ∈ db.contacts, c.phone_number ≠ cleanNumber From)
    (hid : ∀ c ∈ db.contacts, c.id ≠ db.nextContactId) :
    webhookIngest db From Body =
      ({ contacts := db.contacts ++ [freshContactRow db From]
         messages := db.messages ++ [freshIncomingRow db Body]
         nextContactId := db.nextContactId + 1
         nextMessageId := db.nextMessageId + 1
         clock := db.clock + 2 }, freshContactRow db From) := by
  have hfind : db.contacts.find? (fun c => c.phone_number == cleanNumber From) = none :=
    List.find?_eq_none.mpr (fun x hx => by simp [hfresh x hx])
  have hidF : ∀ c ∈ db.contacts, (c.id == db.nextContactId) = false :=
    fun c hc => by simp [hid c hc]
  simp only [webhookIngest, get_or_create_contact, save_message, hfind]
  rw [updateFirst_append_none _ hidF, find?_append_none _ hidF]
  simp [updateFirst, freshContactRow, freshIncomingRow]

/-- C1: for a phone number whose canonical form (the code strips the
"whatsapp:" prefix via replace) is not in the contacts table, lines
292-295 of the webhook create exactly one contact row, with status
PROSPECTO_NUEVO and total_messages equal to 1 immediately after the
incoming message is saved.  The second hypothesis says the autoincrement
id is genuinely fresh, which the primary key guarantees. -/
theorem webhook_first_message_creates_new_prospect (db : Db) (From Body : String)
    (hfresh : ∀ c ∈ db.contacts, c.phone_number ≠ cleanNumber From)
    (hid : ∀ c ∈ db.contacts, c.id ≠ db.nextContactId) :
    (webhookIngest db From Body).1.contacts.filter
        (fun c => c.phone_number == cleanNumber From) = [(webhookIngest db From Body).2] ∧
    (webhookIngest db From Body).2.status = Status.PROSPECTO_NUEVO ∧
    (webhookIngest db From Body).2.total_messages = 1 ∧
    (webhookIngest db From Body).1.contacts.length = db.contacts.length + 1 := by
  rw [webhookIngest_fresh db From Body hfresh hid]
  have hnil : db.contacts.filter (fun c => c.phone_number == cleanNumber From) = [] :=
    List.filter_eq_nil_iff.mpr (fun x hx => by simp [hfresh x hx])
  refine ⟨?_, rfl, rfl, by simp⟩
  rw [List.filter_append, hnil]
  simp [freshContactRow]

/-- Witness for C1 on an empty database and a prefixed WhatsApp number. -/
theorem webhook_first_message_creates_new_prospect_witness :
    (∀ c ∈ (Db.mk [] [] 1 1 0).contacts,
        c.phone_number ≠ cleanNumber "whatsapp:+5215550000001") ∧
    (∀ c ∈ (Db.mk [] [] 1 1 0).contacts, c.id ≠ (Db.mk [] [] 1 1 0).nextContactId) ∧
    ((webhookIngest (Db.mk [] [] 1 1 0) "whatsapp:+5215550000001" "Hola").1.contacts.filter
        (fun c => c.phone_number == cleanNumber "whatsapp:+5215550000001") =
      [(webhookIngest (Db.mk [] [] 1 1 0) "whatsapp:+5215550000001" "Hola").2] ∧
    (webhookIngest (Db.mk [] [] 1 1 0) "whatsapp:+5215550000001" "Hola").2.status =
      Status.PROSPECTO_NUEVO ∧
    (webhookIngest (Db.mk [] [] 1 1 0) "whatsapp:+5215550000001" "Hola").2.total_messages = 1 ∧
    (webhookIngest (Db.mk [] [] 1 1 0) "whatsapp:+5215550000001" "Hola").1.contacts.length =
      (Db.mk [] [] 1 1 0).contacts.length + 1) :=
  ⟨by simp, by simp,
    webhook_first_message_creates_new_prospect (Db.mk [] [] 1 1 0)
      "whatsapp:+5215550000001" "Hola" (by simp) (by simp)⟩

/-- Decomposition of a successful find? around the found element. -/
theorem find?_decomp {α : Type} {p : α → Bool} {l : List α} {a : α}
    (h : l.find? p = some a) :
    ∃ l1 l2, l = l1 ++ a :: l2 ∧ ∀ x ∈ l1, p x = false := by
  induction l with
  | nil => simp at h
  | cons b t ih =>
    by_cases hb : p b
    · rw [List.find?_cons_of_pos t hb] at h
      exact ⟨[], t, by simpa using h, by simp⟩
    · rw [List.find?_cons_of_neg t hb] at h
      rcases ih h with ⟨l1, l2, rfl, hl1⟩
      refine ⟨b :: l1, l2, rfl, ?_⟩
      intro x hx
      rcases List.mem_cons.mp hx with rfl | hxt
      · simpa using hb
      · exact hl1 x hxt

/-- Characterization of lines 292-295 when the cleaned number already has
a contact row and contact ids are unique (primary key): the handler's
contact object afterwards is the stored row with counter bumped by one,
last_contact refreshed, and every other field untouched. -/
theorem webhookIngest_existing (db : Db) (From Body : String) (c0 : Contact)
    (hfind : db.contacts.find? (fun c => c.phone_number == cleanNumber From) = some c0)
    (hnodup : (db.contacts.map Contact.id).Nodup) :
    (webhookIngest db From Body).2 =
      { c0 with total_messages := c0.total_messages + 1, last_contact := db.clock } := by
  rcases find?_decomp hfind with ⟨l1, l2, hdec, hl1⟩
  have hl1id : ∀ x ∈ l1, (x.id == c0.id) = false := by
    intro x hx
    have hco : c0.id ∈ (c0 :: l2).map Contact.id := by simp
    have hxid : x.id ∈ l1.map Contact.id := List.mem_map_of_mem Contact.id hx
    rw [hdec, List.map_append, List.nodup_append] at hnodup
    simp only [beq_eq_false_iff_ne, ne_eq]
    intro heq
    have hmem2 : x.id ∈ (c0 :: l2).map Contact.id := by rw [heq]; exact hco
    exact hnodup.2.2 hxid hmem2
  simp only [webhookIngest, get_or_create_contact, save_message, hfind]
  rw [hdec, updateFirst_append_none _ hl1id, find?_append_none _ hl1id]
  simp [updateFirst]

/-- The COMPETENCIA canned reply pre-empts keyword matching (lines 333-335). -/
theorem generar_competencia (m : String) (c : Contact) (h : List Message)
    (h1 : 1 < c.total_messages) (h2 : c.status = Status.COMPETENCIA) :
    generar_respuesta_inteligente m c h =
      "Gracias por tu interés nuevamente. Te invito a agendar una visita para conocer nuestras instalaciones personalmente: https://calendly.com/tu-colegio" := by
  unfold generar_respuesta_inteligente
  rw [if_pos ⟨h1, h2⟩]

/-- The PROSPECTO_INFORMADO canned reply pre-empts keyword matching
(lines 337-338). -/
theorem generar_informado (m : String) (c : Contact) (h : List Message)
    (h1 : 1 < c.total_messages) (h2 : c.status = Status.PROSPECTO_INFORMADO) :
    generar_respuesta_inteligente m c h =
      "Ya te hemos proporcionado la información básica. ¿Te gustaría agendar una visita para conocer nuestras instalaciones?" := by
  unfold generar_respuesta_inteligente
  rw [if_neg (by simp [h2]), if_pos ⟨h1, h2⟩]

/-- C2: when the contact looked up for the inbound message already has a
message counter above one (messages recorded before the current inbound
one) and its status is COMPETENCIA or PROSPECTO_INFORMADO, the reply the
webhook computes is the status-specific canned message, for every message
text.  The counter the generator itself sees is the prior counter plus
the freshly saved incoming message. -/
theorem webhook_status_preempts_keywords (db : Db) (From Body : String)
    (hnodup : (db.contacts.map Contact.id).Nodup)
    (hprior : 1 < (get_or_create_contact db From).2.total_messages) :
    ((get_or_create_contact db From).2.status = Status.COMPETENCIA →
      webhookRespuesta db From Body =
        "Gracias por tu interés nuevamente. Te invito a agendar una visita para conocer nuestras instalaciones personalmente: https://calendly.com/tu-colegio") ∧
    ((get_or_create_contact db From).2.status = Status.PROSPECTO_INFORMADO →
      webhookRespuesta db From Body =
        "Ya te hemos proporcionado la información básica. ¿Te gustaría agendar una visita para conocer nuestras instalaciones?") := by
  cases hfind : db.contacts.find? (fun c => c.phone_number == cleanNumber From) with
  | none =>
    have h0 : (get_or_create_contact db From).2.total_messages = 0 := by
      simp [get_or_create_contact, hfind]
    rw [h0] at hprior
    exact absurd hprior (by omega)
  | some c0 =>
    have hc0 : (get_or_create_contact db From).2 = c0 := by
      simp [get_or_create_contact, hfind]
    rw [hc0] at hprior ⊢
    have hing := webhookIngest_existing db From Body c0 hfind hnodup
    constructor <;> intro hst
    · simp only [webhookRespuesta]
      rw [hing]
      exact generar_competencia _ _ _ (by simp; omega) (by simp [hst])
    · simp only [webhookRespuesta]
      rw [hing]
      exact generar_informado _ _ _ (by simp; omega) (by simp [hst])

/-- Witness for C2: a COMPETENCIA contact with two prior messages gets the
canned reply even for the greeting text "hola". -/
theorem webhook_status_preempts_keywords_witness :
    ((Db.mk [Contact.mk 1 "+525511111111" Status.COMPETENCIA 0 0 2 none false]
        [] 2 1 5).contacts.map Contact.id).Nodup ∧
    1 < (get_or_create_contact
        (Db.mk [Contact.mk 1 "+525511111111" Status.COMPETENCIA 0 0 2 none false] [] 2 1 5)
        "+525511111111").2.total_messages ∧
    webhookRespuesta
        (Db.mk [Contact.mk 1 "+525511111111" Status.COMPETENCIA 0 0 2 none false] [] 2 1 5)
        "+525511111111" "hola" =
      "Gracias por tu interés nuevamente. Te invito a agendar una visita para conocer nuestras instalaciones personalmente: https://calendly.com/tu-colegio" :=
  ⟨by decide, by decide,
    (webhook_status_preempts_keywords
        (Db.mk [Contact.mk 1 "+525511111111" Status.COMPETENCIA 0 0 2 none false] [] 2 1 5)
        "+525511111111" "hola" (by decide) (by decide)).1 (by decide)⟩

/-- C4: the generator factors through lower().strip(), so any two
messages differing only in letter case and leading/trailing whitespace
get the same reply for every fixed contact state; in particular "HOLA ",
" Hola" and "hola" all take the greeting branch when no status-specific
pre-emption applies. -/
theorem generar_case_whitespace_insensitive :
    (∀ (m m' : String) (c : Contact) (h : List Message), CaseWsVariant m m' →
      generar_respuesta_inteligente m c h = generar_respuesta_inteligente m' c h) ∧
    (∀ (c : Contact) (h : List Message),
      ¬(1 < c.total_messages ∧
          (c.status = Status.COMPETENCIA ∨ c.status = Status.PROSPECTO_INFORMADO)) →
      generar_respuesta_inteligente "HOLA " c h = generar_respuesta_inteligente "hola" c h ∧
      generar_respuesta_inteligente " Hola" c h = generar_respuesta_inteligente "hola" c h ∧
      generar_respuesta_inteligente "hola" c h =
        (if c.total_messages = 1 then
          "¡Hola! Soy el asistente virtual del Colegio. ¿Es tu primera vez en contacto con nosotros?"
        else
          "¡Hola de nuevo! Veo que ya hemos conversado antes (" ++
            toString c.total_messages ++ " mensajes). ¿En qué más puedo ayudarte?")) := by
  constructor
  · intro m m' c h hv
    simp only [generar_respuesta_inteligente]
    rw [pyNormalize_eq_of_variant hv]
  · intro c h hpre
    have hHOLA : pyNormalize "HOLA " = pyNormalize "hola" := by decide
    have hHola : pyNormalize " Hola" = pyNormalize "hola" := by decide
    refine ⟨?_, ?_, ?_⟩
    · simp only [generar_respuesta_inteligente]
      rw [hHOLA]
    · simp only [generar_respuesta_inteligente]
      rw [hHola]
    · simp only [generar_respuesta_inteligente]
      rw [if_neg (fun hc => hpre ⟨hc.1, Or.inl hc.2⟩),
        if_neg (fun hc => hpre ⟨hc.1, Or.inr hc.2⟩)]
      have hn : pyNormalize "hola" = "hola" := by decide
      rw [hn]
      simp only [respuestaPorClave]
      rw [if_pos (show anyKw saludoKws "hola" = true by decide)]

/-- Witness for C4, exercising the variant relation on "HOLA " and
" hola" with an explicit decomposition into whitespace and core. -/
theorem generar_case_whitespace_insensitive_witness :
    CaseWsVariant "HOLA " " hola" ∧
    generar_respuesta_inteligente "HOLA " (Contact.mk 1 "+52" Status.PROSPECTO_NUEVO 0 0 1 none false) [] =
      generar_respuesta_inteligente " hola" (Contact.mk 1 "+52" Status.PROSPECTO_NUEVO 0 0 1 none false) [] := by
  have hv : CaseWsVariant "HOLA " " hola" :=
    ⟨[], ['H','O','L','A'], [' '], [' '], ['h','o','l','a'], [],
      by decide, by decide, by decide, by decide, by decide, by decide, by decide⟩
  exact ⟨hv, generar_case_whitespace_insensitive.1 "HOLA " " hola"
    (Contact.mk 1 "+52" Status.PROSPECTO_NUEVO 0 0 1 none false) [] hv⟩

/-- C5: when no status-specific pre-emption applies and the normalized
message contains no keyword of any of the six lists, the generator
returns the fixed fallback menu verbatim. -/
theorem generar_fallback_menu (m : String) (c : Contact) (h : List Message)
    (hpre : ¬(1 < c.total_messages ∧
        (c.status = Status.COMPETENCIA ∨ c.status = Status.PROSPECTO_INFORMADO)))
    (hkw : anyKeywordHit (pyNormalize m) = false) :
    generar_respuesta_inteligente m c h =
      "¡Hola! Soy el asistente del Colegio. Puedo ayudarte con:\n• Horarios\n• Ubicación\n• Costos\n• Agendar visitas\n\n¿En qué necesitas información?" := by
  simp only [anyKeywordHit, Bool.or_eq_false_iff] at hkw
  obtain ⟨⟨⟨⟨⟨k1, k2⟩, k3⟩, k4⟩, k5⟩, k6⟩ := hkw
  simp only [generar_respuesta_inteligente]
  rw [if_neg (fun hc => hpre ⟨hc.1, Or.inl hc.2⟩),
    if_neg (fun hc => hpre ⟨hc.1, Or.inr hc.2⟩)]
  simp only [respuestaPorClave]
  rw [if_neg (by simp [k1]), if_neg (by simp [k2]), if_neg (by simp [k3]),
    if_neg (by simp [k4]), if_neg (by simp [k5]), if_neg (by simp [k6])]

/-- Witness for C5 on the message "gracias", which matches no keyword. -/
theorem generar_fallback_menu_witness :
    ¬(1 < (Contact.mk 1 "+52" Status.PROSPECTO_NUEVO 0 0 1 none false).total_messages ∧
        ((Contact.mk 1 "+52" Status.PROSPECTO_NUEVO 0 0 1 none false).status = Status.COMPETENCIA ∨
         (Contact.mk 1 "+52" Status.PROSPECTO_NUEVO 0 0 1 none false).status = Status.PROSPECTO_INFORMADO)) ∧
    anyKeywordHit (pyNormalize "gracias") = false ∧
    generar_respuesta_inteligente "gracias"
        (Contact.mk 1 "+52" Status.PROSPECTO_NUEVO 0 0 1 none false) [] =
      "¡Hola! Soy el asistente del Colegio. Puedo ayudarte con:\n• Horarios\n• Ubicación\n• Costos\n• Agendar visitas\n\n¿En qué necesitas información?" :=
  ⟨by decide, by decide,
    generar_fallback_menu "gracias" (Contact.mk 1 "+52" Status.PROSPECTO_NUEVO 0 0 1 none false) []
      (by decide) (by decide)⟩

/-- C6: both conversation endpoints return the messages ordered by
non-decreasing timestamp (ORDER BY timestamp ASC, then a prefix for the
limited endpoint, then direction/content formatting). -/
theorem conversations_sorted (db : Db) (phone : String) (limit : Nat)
    (r1 r2 : ConvResponse) :
    (get_conversations_by_phone db phone limit = Except.ok r1 →
      r1.conversacion.Pairwise (fun a b => a.timestamp ≤ b.timestamp)) ∧
    (get_conversation_json db phone = Except.ok r2 →
      r2.conversacion.Pairwise (fun a b => a.timestamp ≤ b.timestamp)) := by
  constructor
  · intro hok
    simp only [get_conversations_by_phone] at hok
    cases hfind : db.contacts.find? (fun c => c.phone_number == cleanNumber phone) with
    | none => rw [hfind] at hok; exact absurd hok (by simp)
    | some contact =>
      rw [hfind] at hok
      have hr : r1 = _ := (Except.ok.injEq _ _).mp hok |>.symm
      rw [hr]
      have hs : (((db.messages.filter (fun m => m.contact_id == contact.id)).insertionSort
          tsLe).take limit).Pairwise tsLe :=
        (List.sorted_insertionSort tsLe _).sublist (List.take_sublist _ _)
      exact hs.map toConvItem (fun a b hab => hab)
  · intro hok
    simp only [get_conversation_json] at hok
    cases hfind : db.contacts.find?
        (fun c => c.phone_number == pyUnquote (cleanNumber phone)) with
    | none => rw [hfind] at hok; exact absurd hok (by simp)
    | some contact =>
      rw [hfind] at hok
      have hr : r2 = _ := (Except.ok.injEq _ _).mp hok |>.symm
      rw [hr]
      exact (List.sorted_insertionSort tsLe _).map toConvItem (fun a b hab => hab)

/-- Witness for C6 on a database holding two out-of-order message rows. -/
theorem conversations_sorted_witness :
    get_conversations_by_phone
        (Db.mk [Contact.mk 1 "+5" Status.PROSPECTO_NUEVO 0 0 2 none false]
          [Message.mk 1 1 Direction.incoming "a" 5 none,
           Message.mk 2 1 Direction.outgoing "b" 3 none] 2 3 6) "+5" 50 =
      Except.ok (ConvResponse.mk "+5" Status.PROSPECTO_NUEVO 2
        [ConvItem.mk "bot" "b" 3, ConvItem.mk "usuario" "a" 5]) ∧
    get_conversation_json
        (Db.mk [Contact.mk 1 "+5" Status.PROSPECTO_NUEVO 0 0 2 none false]
          [Message.mk 1 1 Direction.incoming "a" 5 none,
           Message.mk 2 1 Direction.outgoing "b" 3 none] 2 3 6) "+5" =
      Except.ok (ConvResponse.mk "+5" Status.PROSPECTO_NUEVO 2
        [ConvItem.mk "bot" "b" 3, ConvItem.mk "usuario" "a" 5]) ∧
    (ConvResponse.mk "+5" Status.PROSPECTO_NUEVO 2
        [ConvItem.mk "bot" "b" 3, ConvItem.mk "usuario" "a" 5]).conversacion.Pairwise
      (fun a b => a.timestamp ≤ b.timestamp) ∧
    (ConvResponse.mk "+5" Status.PROSPECTO_NUEVO 2
        [ConvItem.mk "bot" "b" 3, ConvItem.mk "usuario" "a" 5]).conversacion.Pairwise
      (fun a b => a.timestamp ≤ b.timestamp) :=
  ⟨by decide, by decide,
    (conversations_sorted
        (Db.mk [Contact.mk 1 "+5" Status.PROSPECTO_NUEVO 0 0 2 none false]
          [Message.mk 1 1 Direction.incoming "a" 5 none,
           Message.mk 2 1 Direction.outgoing "b" 3 none] 2 3 6) "+5" 50
        (ConvResponse.mk "+5" Status.PROSPECTO_NUEVO 2
          [ConvItem.mk "bot" "b" 3, ConvItem.mk "usuario" "a" 5])
        (ConvResponse.mk "+5" Status.PROSPECTO_NUEVO 2
          [ConvItem.mk "bot" "b" 3, ConvItem.mk "usuario" "a" 5])).1 (by decide),
    (conversations_sorted
        (Db.mk [Contact.mk 1 "+5" Status.PROSPECTO_NUEVO 0 0 2 none false]
          [Message.mk 1 1 Direction.incoming "a" 5 none,
           Message.mk 2 1 Direction.outgoing "b" 3 none] 2 3 6) "+5" 50
        (ConvResponse.mk "+5" Status.PROSPECTO_NUEVO 2
          [ConvItem.mk "bot" "b" 3, ConvItem.mk "usuario" "a" 5])
        (ConvResponse.mk "+5" Status.PROSPECTO_NUEVO 2
          [ConvItem.mk "bot" "b" 3, ConvItem.mk "usuario" "a" 5])).2 (by decide)⟩

/-- Counterexample to C7 as stated: the database stores the contact
"+5215512345678" only, so the path value "%2B5215512345678" (which does
not start with "whatsapp:", hence equals its prefix-stripped form)
matches no contact row; the claim then demands a 404 from
GET /panel/conversations/json/{phone}, but the endpoint percent-decodes
the number, finds the contact, and answers 200. -/
theorem conversation_unknown_number_counterexample :
    (∀ c ∈ (Db.mk [Contact.mk 1 "+5215512345678" Status.PROSPECTO_NUEVO 0 0 0 none false]
        [] 2 1 0).contacts, c.phone_number ≠ "%2B5215512345678") ∧
    cleanNumber "%2B5215512345678" = "%2B5215512345678" ∧
    (get_conversation_json
        (Db.mk [Contact.mk 1 "+5215512345678" Status.PROSPECTO_NUEVO 0 0 0 none false] [] 2 1 0)
        "%2B5215512345678").isOk = true ∧
    get_conversation_json
        (Db.mk [Contact.mk 1 "+5215512345678" Status.PROSPECTO_NUEVO 0 0 0 none false] [] 2 1 0)
        "%2B5215512345678" ≠
      Except.error (HttpError.mk 404 "Contacto no encontrado") := by
  refine ⟨by decide, by decide, by decide, by decide⟩

/-- C7 as amended: GET /conversations/{phone} answers 404 with detail
"Contacto no encontrado" exactly when the cleaned number matches no
contact row; GET /panel/conversations/json/{phone} answers that 404
exactly when the percent-decoded cleaned number matches no contact row;
and neither endpoint ever returns any other error. -/
theorem conversation_unknown_number_404 (db : Db) (phone : String) (limit : Nat) :
    (get_conversations_by_phone db phone limit =
        Except.error (HttpError.mk 404 "Contacto no encontrado") ↔
      ∀ c ∈ db.contacts, c.phone_number ≠ cleanNumber phone) ∧
    (get_conversation_json db phone =
        Except.error (HttpError.mk 404 "Contacto no encontrado") ↔
      ∀ c ∈ db.contacts, c.phone_number ≠ pyUnquote (cleanNumber phone)) ∧
    (∀ e, get_conversations_by_phone db phone limit = Except.error e →
      e = HttpError.mk 404 "Contacto no encontrado") ∧
    (∀ e, get_conversation_json db phone = Except.error e →
      e = HttpError.mk 404 "Contacto no encontrado") := by
  refine ⟨⟨?_, ?_⟩, ⟨?_, ?_⟩, ?_, ?_⟩
  · intro h404 x hx heq
    cases hfind : db.contacts.find? (fun c => c.phone_number == cleanNumber phone) with
    | none => exact (List.find?_eq_none.mp hfind x hx) (by simp [heq])
    | some contact =>
      simp only [get_conversations_by_phone, hfind] at h404
      exact absurd h404 (by simp)
  · intro h
    have hf : db.contacts.find? (fun c => c.phone_number == cleanNumber phone) = none :=
      List.find?_eq_none.mpr (fun x hx => by simp [h x hx])
    simp only [get_conversations_by_phone, hf]
  · intro h404 x hx heq
    cases hfind : db.contacts.find?
        (fun c => c.phone_number == pyUnquote (cleanNumber phone)) with
    | none => exact (List.find?_eq_none.mp hfind x hx) (by simp [heq])
    | some contact =>
      simp only [get_conversation_json, hfind] at h404
      exact absurd h404 (by simp)
  · intro h
    have hf : db.contacts.find?
        (fun c => c.phone_number == pyUnquote (cleanNumber phone)) = none :=
      List.find?_eq_none.mpr (fun x hx => by simp [h x hx])
    simp only [get_conversation_json, hf]
  · intro e he
    cases hfind : db.contacts.find? (fun c => c.phone_number == cleanNumber phone) with
    | none =>
      simp only [get_conversations_by_phone, hfind] at he
      exact ((Except.error.injEq _ _).mp he).symm
    | some contact =>
      simp only [get_conversations_by_phone, hfind] at he
      exact absurd he (by simp)
  · intro e he
    cases hfind : db.contacts.find?
        (fun c => c.phone_number == pyUnquote (cleanNumber phone)) with
    | none =>
      simp only [get_conversation_json, hfind] at he
      exact ((Except.error.injEq _ _).mp he).symm
    | some contact =>
      simp only [get_conversation_json, hfind] at he
      exact absurd he (by simp)

/-- Witness for the amended C7, exercising the divergent input of the
counterexample: with only "+5215512345678" stored, /conversations at
"%2B5215512345678" does answer 404 (the decoded-number hypothesis plays
no role there), and the JSON endpoint answers 404 at the undecodable
unknown number "+9". -/
theorem conversation_unknown_number_404_witness :
    (∀ c ∈ (Db.mk [Contact.mk 1 "+5215512345678" Status.PROSPECTO_NUEVO 0 0 0 none false]
        [] 2 1 0).contacts, c.phone_number ≠ cleanNumber "%2B5215512345678") ∧
    get_conversations_by_phone
        (Db.mk [Contact.mk 1 "+5215512345678" Status.PROSPECTO_NUEVO 0 0 0 none false] [] 2 1 0)
        "%2B5215512345678" 50 =
      Except.error (HttpError.mk 404 "Contacto no encontrado") ∧
    (∀ c ∈ (Db.mk [Contact.mk 1 "+5215512345678" Status.PROSPECTO_NUEVO 0 0 0 none false]
        [] 2 1 0).contacts, c.phone_number ≠ pyUnquote (cleanNumber "+9")) ∧
    get_conversation_json
        (Db.mk [Contact.mk 1 "+5215512345678" Status.PROSPECTO_NUEVO 0 0 0 none false] [] 2 1 0)
        "+9" =
      Except.error (HttpError.mk 404 "Contacto no encontrado") :=
  ⟨by decide,
    (conversation_unknown_number_404
      (Db.mk [Contact.mk 1 "+5215512345678" Status.PROSPECTO_NUEVO 0 0 0 none false] [] 2 1 0)
      "%2B5215512345678" 50).1.mpr (by decide),
    by decide,
    (conversation_unknown_number_404
      (Db.mk [Contact.mk 1 "+5215512345678" Status.PROSPECTO_NUEVO 0 0 0 none false] [] 2 1 0)
      "+9" 50).2.1.mpr (by decide)⟩

/-- C8: with exactly 15 contacts stored, page 2 with limit 10 shows
exactly 5 contacts and has_next is computed false. -/
theorem panel_page2_of_15 (db : Db) (h15 : db.contacts.length = 15) :
    (crm_panel db 2 10).shown.length = 5 ∧ (crm_panel db 2 10).has_next = false := by
  have hlen : (db.contacts.insertionSort lastContactGe).length = 15 := by
    rw [(List.perm_insertionSort lastContactGe db.contacts).length_eq, h15]
  constructor
  · simp only [crm_panel]
    rw [List.length_take, List.length_drop, hlen]
    decide
  · simp only [crm_panel]
    rw [h15]
    decide

/-- Witness for C8 on 15 concrete contacts. -/
theorem panel_page2_of_15_witness :
    (Db.mk ((List.range 15).map
        (fun i => Contact.mk i (toString i) Status.PROSPECTO_NUEVO 0 i 0 none false))
      [] 15 1 20).contacts.length = 15 ∧
    ((crm_panel (Db.mk ((List.range 15).map
        (fun i => Contact.mk i (toString i) Status.PROSPECTO_NUEVO 0 i 0 none false))
      [] 15 1 20) 2 10).shown.length = 5 ∧
    (crm_panel (Db.mk ((List.range 15).map
        (fun i => Contact.mk i (toString i) Status.PROSPECTO_NUEVO 0 i 0 none false))
      [] 15 1 20) 2 10).has_next = false) :=
  ⟨by simp, panel_page2_of_15 _ (by simp)⟩

/-- C9: the webhook handler always returns one of the two envelopes and
never lets an exception escape: the envelope is the processed one with
the contact id whenever the SID extraction (the only raising operation
in the try-block) succeeds, and the error envelope carrying the
exception text otherwise. -/
theorem webhook_status_envelope (db : Db) (From Body twilioResult : String) :
    (whatsapp_webhook db From Body twilioResult).2 =
      (match sidExtract twilioResult with
        | Except.ok _ => Envelope.processed (webhookIngest db From Body).2.id
        | Except.error e => Envelope.err e) := by
  simp only [whatsapp_webhook, whatsappWebhookTry]
  cases hs : sidExtract twilioResult with
  | ok sid => simp
  | error e => simp

/-- C10: saving a message for an existing contact (unique ids, as the
primary key guarantees) appends exactly one message row, leaving every
earlier message untouched, and rewrites the contact table so that only
the addressed contact changes, by a counter increment and a last_contact
refresh. -/
theorem save_message_frame (db : Db) (cid : Nat) (dir : Direction)
    (content : String) (sid : Option String)
    (hnodup : (db.contacts.map Contact.id).Nodup)
    (hmem : ∃ c ∈ db.contacts, c.id = cid) :
    (save_message db cid dir content sid).1.messages =
      db.messages ++ [(save_message db cid dir content sid).2] ∧
    (save_message db cid dir content sid).1.contacts =
      db.contacts.map (fun c => if c.id = cid then
        { c with total_messages := c.total_messages + 1, last_contact := db.clock }
      else c) := by
  constructor
  · rfl
  · simp only [save_message]
    exact updateFirst_eq_map_of_nodup hnodup hmem

/-- Witness for C10 on a two-contact database. -/
theorem save_message_frame_witness :
    ((Db.mk [Contact.mk 1 "+5" Status.PROSPECTO_NUEVO 0 0 0 none false,
             Contact.mk 2 "+6" Status.COMPETENCIA 0 0 3 none true] [] 3 1 7).contacts.map
      Contact.id).Nodup ∧
    (∃ c ∈ (Db.mk [Contact.mk 1 "+5" Status.PROSPECTO_NUEVO 0 0 0 none false,
             Contact.mk 2 "+6" Status.COMPETENCIA 0 0 3 none true] [] 3 1 7).contacts,
      c.id = 1) ∧
    ((save_message (Db.mk [Contact.mk 1 "+5" Status.PROSPECTO_NUEVO 0 0 0 none false,
             Contact.mk 2 "+6" Status.COMPETENCIA 0 0 3 none true] [] 3 1 7)
        1 Direction.incoming "hola" none).1.messages =
      (Db.mk [Contact.mk 1 "+5" Status.PROSPECTO_NUEVO 0 0 0 none false,
             Contact.mk 2 "+6" Status.COMPETENCIA 0 0 3 none true] [] 3 1 7).messages ++
        [(save_message (Db.mk [Contact.mk 1 "+5" Status.PROSPECTO_NUEVO 0 0 0 none false,
             Contact.mk 2 "+6" Status.COMPETENCIA 0 0 3 none true] [] 3 1 7)
          1 Direction.incoming "hola" none).2] ∧
    (save_message (Db.mk [Contact.mk 1 "+5" Status.PROSPECTO_NUEVO 0 0 0 none false,
             Contact.mk 2 "+6" Status.COMPETENCIA 0 0 3 none true] [] 3 1 7)
        1 Direction.incoming "hola" none).1.contacts =
      (Db.mk [Contact.mk 1 "+5" Status.PROSPECTO_NUEVO 0 0 0 none false,
             Contact.mk 2 "+6" Status.COMPETENCIA 0 0 3 none true] [] 3 1 7).contacts.map
        (fun c => if c.id = 1 then
          { c with total_messages := c.total_messages + 1,
                   last_contact := (Db.mk [Contact.mk 1 "+5" Status.PROSPECTO_NUEVO 0 0 0 none false,
             Contact.mk 2 "+6" Status.COMPETENCIA 0 0 3 none true] [] 3 1 7).clock }
        else c)) :=
  ⟨by decide, ⟨Contact.mk 1 "+5" Status.PROSPECTO_NUEVO 0 0 0 none false, by decide, rfl⟩,
    save_message_frame _ 1 Direction.incoming "hola" none (by decide)
      ⟨Contact.mk 1 "+5" Status.PROSPECTO_NUEVO 0 0 0 none false, by decide, rfl⟩⟩

/-- updateFirst on a decomposed list whose first block never matches. -/
theorem updateFirst_decomp {α : Type} {p : α → Bool} {f : α → α}
    {pre : List α} {c : α} (post : List α)
    (hpre : ∀ x ∈ pre, p x = false) (hc : p c = true) :
    updateFirst p f (pre ++ c :: post) = pre ++ f c :: post := by
  rw [updateFirst_append_none _ hpre]
  simp [updateFirst, hc]

/-- find? on a decomposed list whose first block never matches. -/
theorem find?_decomp_eq {α : Type} {p : α → Bool}
    {pre : List α} {c : α} (post : List α)
    (hpre : ∀ x ∈ pre, p x = false) (hc : p c = true) :
    (pre ++ c :: post).find? p = some c := by
  rw [find?_append_none _ hpre]
  exact List.find?_cons_of_pos _ hc

/-- One more completed round-trip bumps the invariant from k to k+1. -/
theorem roundTrip_keeps_inv (From Body tw : String) (db : Db) (cid k : Nat)
    (hok : (sidExtract tw).isOk = true)
    (hinv : ContactInv (cleanNumber From) cid k db) :
    ContactInv (cleanNumber From) cid (k + 1) (roundTrip From Body tw db) := by
  rcases hinv with ⟨pre, c, post, hdec, hcid, hphone, htot, hpre, hpost, hmsg⟩
  obtain ⟨s, hs⟩ : ∃ s, sidExtract tw = Except.ok s := by
    cases h : sidExtract tw with
    | ok s => exact ⟨s, rfl⟩
    | error e => rw [h] at hok; simp [Except.isOk, Except.toBool] at hok
  have hpre_ph : ∀ x ∈ pre, (x.phone_number == cleanNumber From) = false :=
    fun x hx => by simp [(hpre x hx).1]
  have hpre_id : ∀ x ∈ pre, (x.id == c.id) = false :=
    fun x hx => by simp [hcid, (hpre x hx).2]
  have hfind : db.contacts.find? (fun x => x.phone_number == cleanNumber From) = some c := by
    rw [hdec]
    exact find?_decomp_eq post hpre_ph (by simp [hphone])
  have hing : webhookIngest db From Body =
      ({ contacts := pre ++
          { c with total_messages := c.total_messages + 1, last_contact := db.clock } :: post
         messages := db.messages ++
          [Message.mk db.nextMessageId c.id Direction.incoming Body db.clock none]
         nextContactId := db.nextContactId
         nextMessageId := db.nextMessageId + 1
         clock := db.clock + 1 },
       { c with total_messages := c.total_messages + 1, last_contact := db.clock }) := by
    simp only [webhookIngest, get_or_create_contact, save_message, hfind]
    rw [hdec, updateFirst_decomp post hpre_id (by simp),
      find?_decomp_eq post hpre_id (by simp)]
    simp
  have hrt : roundTrip From Body tw db =
      { contacts := pre ++
          { c with total_messages := c.total_messages + 1 + 1,
                   last_contact := db.clock + 1 } :: post
        messages := (db.messages ++
          [Message.mk db.nextMessageId c.id Direction.incoming Body db.clock none]) ++
          [Message.mk (db.nextMessageId + 1) c.id Direction.outgoing
            (webhookRespuesta db From Body) (db.clock + 1) s]
        nextContactId := db.nextContactId
        nextMessageId := db.nextMessageId + 1 + 1
        clock := db.clock + 1 + 1 } := by
    simp only [roundTrip, whatsapp_webhook, whatsappWebhookTry, hing, hs, save_message]
    rw [updateFirst_decomp post hpre_id (by simp)]
  refine ⟨pre,
    { c with total_messages := c.total_messages + 1 + 1, last_contact := db.clock + 1 },
    post, by rw [hrt], by simpa using hcid, by simpa using hphone, ?_, hpre, hpost, ?_⟩
  · simp only [htot]
    omega
  · rw [hrt]
    simp only [List.filter_append]
    rw [List.length_append, List.length_append, hmsg]
    simp [hcid, Nat.mul_add]

/-- The first completed round-trip on a fresh number establishes the
invariant at k = 1. -/
theorem roundTrip_base (From Body tw : String) (db : Db)
    (hok : (sidExtract tw).isOk = true)
    (hfresh : ∀ c ∈ db.contacts, c.phone_number ≠ cleanNumber From)
    (hid : ∀ c ∈ db.contacts, c.id ≠ db.nextContactId)
    (hmsgfresh : ∀ m ∈ db.messages, m.contact_id ≠ db.nextContactId) :
    ContactInv (cleanNumber From) db.nextContactId 1 (roundTrip From Body tw db) := by
  obtain ⟨s, hs⟩ : ∃ s, sidExtract tw = Except.ok s := by
    cases h : sidExtract tw with
    | ok s => exact ⟨s, rfl⟩
    | error e => rw [h] at hok; simp [Except.isOk, Except.toBool] at hok
  have hid' : ∀ x ∈ db.contacts, (x.id == db.nextContactId) = false :=
    fun x hx => by simp [hid x hx]
  have hrt : roundTrip From Body tw db =
      { contacts := db.contacts ++
          [Contact.mk db.nextContactId (cleanNumber From) Status.PROSPECTO_NUEVO
            db.clock (db.clock + 2) 2 none false]
        messages := (db.messages ++
          [Message.mk db.nextMessageId db.nextContactId Direction.incoming Body
            (db.clock + 1) none]) ++
          [Message.mk (db.nextMessageId + 1) db.nextContactId Direction.outgoing
            (webhookRespuesta db From Body) (db.clock + 2) s]
        nextContactId := db.nextContactId + 1
        nextMessageId := db.nextMessageId + 1 + 1
        clock := db.clock + 2 + 1 } := by
    simp only [roundTrip, whatsapp_webhook, whatsappWebhookTry,
      webhookIngest_fresh db From Body hfresh hid, hs, save_message, freshContactRow,
      freshIncomingRow]
    rw [updateFirst_decomp [] hid' (by simp)]
  refine ⟨db.contacts,
    Contact.mk db.nextContactId (cleanNumber From) Status.PROSPECTO_NUEVO
      db.clock (db.clock + 2) 2 none false, [],
    by rw [hrt], rfl, rfl, rfl,
    fun x hx => ⟨hfresh x hx, hid x hx⟩, by simp, ?_⟩
  rw [hrt]
  simp only [List.filter_append]
  rw [List.filter_eq_nil_iff.mpr (fun m hm => by simp [hmsgfresh m hm])]
  simp

/-- Iterating completed round-trips preserves and advances the invariant. -/
theorem iter_keeps_inv (From Body tw : String)
    (hok : (sidExtract tw).isOk = true) :
    ∀ (n : Nat) (db : Db) (cid k : Nat),
      ContactInv (cleanNumber From) cid k db →
      ContactInv (cleanNumber From) cid (k + n) (iterRound From Body tw n db) := by
  intro n
  induction n with
  | zero => intro db cid k h; simpa [iterRound] using h
  | succ m ih =>
    intro db cid k h
    have h1 := roundTrip_keeps_inv From Body tw db cid k hok h
    have h2 := ih (roundTrip From Body tw db) cid (k + 1) h1
    have harith : k + 1 + m = k + (m + 1) := by omega
    rw [harith] at h2
    simpa [iterRound] using h2

/-- C3: starting from a database in which the cleaned number is fresh
(and the autoincrement id is unused, as the primary key guarantees),
after N completed webhook round-trips every contact row carrying that
number has total_messages = 2N, equal to the number of message rows
that reference it.  The sidExtract hypothesis says the Twilio status
string parses, i.e. each round-trip completes and saves its outgoing
message. -/
theorem webhook_round_trips_counter (db : Db) (From Body tw : String) (N : Nat)
    (hok : (sidExtract tw).isOk = true)
    (hfresh : ∀ c ∈ db.contacts, c.phone_number ≠ cleanNumber From)
    (hid : ∀ c ∈ db.contacts, c.id ≠ db.nextContactId)
    (hmsgfresh : ∀ m ∈ db.messages, m.contact_id ≠ db.nextContactId) :
    ∀ c ∈ (iterRound From Body tw N db).contacts, c.phone_number = cleanNumber From →
      c.total_messages = 2 * N ∧
      ((iterRound From Body tw N db).messages.filter
        (fun m => m.contact_id == c.id)).length = 2 * N := by
  cases N with
  | zero =>
    intro c hc hph
    simp only [iterRound] at hc
    exact absurd hph (hfresh c hc)
  | succ n =>
    have hbase := roundTrip_base From Body tw db hok hfresh hid hmsgfresh
    have hinv := iter_keeps_inv From Body tw hok n (roundTrip From Body tw db)
      db.nextContactId 1 hbase
    intro c hc hph
    simp only [iterRound] at hc ⊢
    rcases hinv with ⟨pre, c0, post, hdec, hcid, hphone, htot, hpre, hpost, hmsgf⟩
    rw [hdec] at hc
    rcases List.mem_append.mp hc with hcl | hcr
    · exact absurd hph (hpre c hcl).1
    · rcases List.mem_cons.mp hcr with rfl | hcp
      · constructor
        · rw [htot]; omega
        · rw [hcid, hmsgf]; omega
      · exact absurd hph (hpost c hcp).1

/-- Witness for C3: two round-trips from an empty database leave the
created contact with counter 4 = 2*2 and four matching message rows. -/
theorem webhook_round_trips_counter_witness :
    (sidExtract "").isOk = true ∧
    (∀ c ∈ (Db.mk [] [] 1 1 0).contacts, c.phone_number ≠ cleanNumber "whatsapp:+52") ∧
    (Contact.mk 1 "+52" Status.PROSPECTO_NUEVO 0 4 4 none false ∈
      (iterRound "whatsapp:+52" "hola" "" 2 (Db.mk [] [] 1 1 0)).contacts) ∧
    ((Contact.mk 1 "+52" Status.PROSPECTO_NUEVO 0 4 4 none false).total_messages = 2 * 2 ∧
    ((iterRound "whatsapp:+52" "hola" "" 2 (Db.mk [] [] 1 1 0)).messages.filter
      (fun m => m.contact_id ==
        (Contact.mk 1 "+52" Status.PROSPECTO_NUEVO 0 4 4 none false).id)).length = 2 * 2) :=
  ⟨by decide, by decide, by decide,
    webhook_round_trips_counter (Db.mk [] [] 1 1 0) "whatsapp:+52" "hola" "" 2
      (by decide) (by decide) (by decide) (by decide)
      (Contact.mk 1 "+52" Status.PROSPECTO_NUEVO 0 4 4 none false) (by decide) (by decide)⟩
